import Mathlib

/-!
Verification of the PurchaseTracker service worker (`src/sw.js`).

The repository holds two snapshots of the worker in one file: an evolved
"network-first" worker (cache version label `purchase-tracker-smart-v1`)
and an older "cache-first" worker (label `purchase-tracker-v1`).  Both are
embedded below, over a shared model of the browser cache platform.

Platform model: the CacheStorage is an ordered association list of named
generations (creation order), each generation an association list from URL
to a stored response snapshot.  A `Response` carries a single-read body,
tracked by a `bodyUsed` flag: reading a used body fails, and `clone` of a
used response fails, mirroring the platform's single-read contract.
Network and event handlers are pure state transformers: the network is an
explicit `Except Unit Response` argument, and a handler returns the new
store together with the outcome its completion promise settles to.
-/

namespace SW

abbrev Label := String

abbrev Url := String

/-- An intercepted request: method, full URL, the URL's origin component
(`new URL(request.url).origin`), and the request mode (for navigation
detection, `request.mode === 'navigate'`). -/
structure Request where
  method : String
  url : Url
  origin : String
  mode : String
deriving DecidableEq

/-- A stored response snapshot in a cache generation: status, delivery
classification (`basic` = same-origin), and body bytes. -/
structure StoredResponse where
  status : Nat
  rtype : String
  body : List Nat
deriving DecidableEq

/-- A live HTTP response: status, delivery classification, body bytes,
and whether its single-read body has already been consumed. -/
structure Response where
  status : Nat
  rtype : String
  body : List Nat
  bodyUsed : Bool
deriving DecidableEq

/-- `response.clone()`: yields an independent readable copy; throws
(modelled as `none`) if the body was already consumed. -/
def Response.clone (r : Response) : Option Response :=
  if r.bodyUsed then none else some { r with bodyUsed := false }

/-- Consuming a response body: yields the bytes and the response with its
body marked used; fails if the body was already consumed. -/
def readBody (r : Response) : Option (List Nat × Response) :=
  if r.bodyUsed then none else some (r.body, { r with bodyUsed := true })

/-- What `cache.put` persists from a response: consumes the body once and
snapshots status, type and bytes; fails on an already-consumed body. -/
def responseToStored (r : Response) : Option StoredResponse :=
  (readBody r).map fun p => ⟨r.status, r.rtype, p.1⟩

/-- `cache.match` hands back a fresh, fully readable copy of a snapshot. -/
def fromStored (sr : StoredResponse) : Response :=
  ⟨sr.status, sr.rtype, sr.body, false⟩

/-- One cache generation: URL-keyed association list of snapshots. -/
abbrev Cache := List (Url × StoredResponse)

/-- The CacheStorage: named generations in creation order. -/
abbrev CacheStorage := List (Label × Cache)

/-- `caches.keys()`: all generation labels, in creation order. -/
def cachesKeys (s : CacheStorage) : List Label :=
  s.map Prod.fst

/-- `caches.delete(label)`: removes the named generation if present. -/
def cachesDelete (l : Label) (s : CacheStorage) : CacheStorage :=
  s.filter fun p => p.1 != l

/-- `caches.open(label)`: creates the generation if absent. -/
def cachesOpen (l : Label) (s : CacheStorage) : CacheStorage :=
  if s.any (fun p => p.1 == l) then s else s ++ [(l, [])]

/-- The contents of the named generation (empty if absent). -/
def getCache (l : Label) (s : CacheStorage) : Cache :=
  ((s.find? fun p => p.1 == l).map Prod.snd).getD []

/-- Replace the contents of the named generation (no-op if absent). -/
def setCache (l : Label) (c : Cache) (s : CacheStorage) : CacheStorage :=
  s.map fun p => if p.1 == l then (l, c) else p

/-- `cache.put` at the entry level: stores/overwrites the snapshot for a URL. -/
def cachePutEntry (u : Url) (sr : StoredResponse) (c : Cache) : Cache :=
  (u, sr) :: c.filter fun p => p.1 != u

/-- Lookup within one generation (`cache.match`): first entry for the URL. -/
def cacheMatchUrl (u : Url) (c : Cache) : Option StoredResponse :=
  (c.find? fun p => p.1 == u).map Prod.snd

/-- `caches.match(u)`: search every generation in creation order, first hit wins. -/
def cachesMatchUrl (u : Url) : CacheStorage → Option StoredResponse
  | [] => none
  | g :: rest =>
    match cacheMatchUrl u g.2 with
    | some sr => some sr
    | none => cachesMatchUrl u rest

/-- `caches.open(l).then(cache => cache.put(u, sr))`: open (creating if
absent) then store the snapshot under the URL in that generation. -/
def openPut (l : Label) (u : Url) (sr : StoredResponse) (s : CacheStorage) : CacheStorage :=
  let s1 := cachesOpen l s
  setCache l (cachePutEntry u sr (getCache l s1)) s1

deriving instance DecidableEq for Except

/-- Outcome of a fetch event: either the handler returned without calling
`respondWith` (request passes through to the network untouched), or
`respondWith` was called with a promise that settles to `ok (some r)`
(a response), `ok none` (resolved with `undefined`), or `error` (rejected). -/
inductive FetchOutcome where
  | passthrough : FetchOutcome
  | respond : Except Unit (Option Response) → FetchOutcome
deriving DecidableEq

/-- Reply posted for `GET_CACHE_STATUS`:
`{type: 'CACHE_STATUS', caches: cacheNames, currentVersion: CACHE_VERSION}`. -/
structure Reply where
  rtype : String
  caches : List Label
  currentVersion : Label
deriving DecidableEq

/-- `fetchFn` applied to each URL in order; any failure fails the whole
batch (`cache.addAll` semantics), leaving nothing to store. -/
def fetchAll (fetchFn : Url → Except Unit StoredResponse) :
    List Url → Except Unit (List (Url × StoredResponse))
  | [] => .ok []
  | u :: rest =>
    match fetchFn u with
    | .error e => .error e
    | .ok sr =>
      match fetchAll fetchFn rest with
      | .error e => .error e
      | .ok l => .ok ((u, sr) :: l)

/-- `cache.addAll(urls)`: fetch every URL and store all of them, or fail
with the cache unchanged if any fetch fails. -/
def addAll (fetchFn : Url → Except Unit StoredResponse) (urls : List Url)
    (c : Cache) : Except Unit Cache :=
  (fetchAll fetchFn urls).map fun entries =>
    entries.foldl (fun acc p => cachePutEntry p.1 p.2 acc) c

end SW

namespace NetworkFirst

open SW

/-- `const CACHE_VERSION = 'purchase-tracker-smart-v1'` (network-first snapshot). -/
def CACHE_VERSION : Label := "purchase-tracker-smart-v1"

/-- `const STATIC_CACHE_FILES = [...]` (network-first snapshot). -/
def STATIC_CACHE_FILES : List Url :=
  ["/", "/index.html", "/manifest.json", "/icon-192.png", "/icon-512.png"]

/-- The promise the install handler passes to `event.waitUntil`:
`caches.open(CACHE_VERSION).then(cache => cache.addAll(STATIC_CACHE_FILES))
.then(log).catch(log)`.  Returns the resulting store and how the promise
settles.  The trailing `.catch(err => console.error(...))` converts any
seeding failure into a resolved promise, so the settle result is `.ok`
on both branches. -/
def installWaitUntil (fetchFn : Url → Except Unit StoredResponse)
    (s : CacheStorage) : CacheStorage × Except Unit Unit :=
  let s1 := cachesOpen CACHE_VERSION s
  match addAll fetchFn STATIC_CACHE_FILES (getCache CACHE_VERSION s1) with
  | .ok c => (setCache CACHE_VERSION c s1, .ok ())
  | .error _ => (s1, .ok ())

/-- The activate handler's cache cleanup: `caches.keys()` then
`caches.delete(name)` for every name that is not `CACHE_VERSION`. -/
def activateHandler (s : CacheStorage) : CacheStorage :=
  s.filter fun p => p.1 == CACHE_VERSION

/-- `listGenerations` of the spec: the labels `caches.keys()` reports. -/
def listGenerations (s : CacheStorage) : List Label :=
  cachesKeys s

/-- The network-first fetch handler.  `net` is how `fetch(event.request)`
settles.  Non-GET and cross-origin requests return before `respondWith`.
On network success, a 200/basic response is cloned, the clone is consumed
into the cache by a detached `caches.open(...).then(cache.put(...))`, and
the original is returned; other responses are returned with the store
untouched.  On network failure the handler falls back to
`caches.match(request)`, then to `caches.match('/index.html')` for
navigation requests, and otherwise resolves with `undefined`. -/
def fetchHandler (req : Request) (selfOrigin : String)
    (net : Except Unit Response) (s : CacheStorage) : CacheStorage × FetchOutcome :=
  if req.method != "GET" then (s, .passthrough)
  else if req.origin != selfOrigin then (s, .passthrough)
  else
    match net with
    | .ok response =>
      if response.status == 200 && response.rtype == "basic" then
        match response.clone with
        | none => (s, .respond (.error ()))
        | some responseToCache =>
          match responseToStored responseToCache with
          | none => (s, .respond (.ok (some response)))
          | some sr => (openPut CACHE_VERSION req.url sr s, .respond (.ok (some response)))
      else (s, .respond (.ok (some response)))
    | .error _ =>
      match cachesMatchUrl req.url s with
      | some cachedResponse => (s, .respond (.ok (some (fromStored cachedResponse))))
      | none =>
        if req.mode == "navigate" then
          (s, .respond (.ok ((cachesMatchUrl "/index.html" s).map fromStored)))
        else (s, .respond (.ok none))

/-- The message handler (network-first snapshot).  `data` is `none` when
`event.data` is null/undefined, in which case reading `event.data.type`
throws (the handler fails); otherwise `some t` is the value of the `type`
field.  Returns the new store, the reply posted on `event.ports[0]` (only
for `GET_CACHE_STATUS`), and whether `self.skipWaiting()` was invoked. -/
def messageHandler (data : Option String) (s : CacheStorage) :
    Except Unit (CacheStorage × Option Reply × Bool) :=
  match data with
  | none => .error ()
  | some t =>
    if t == "SKIP_WAITING" then .ok (s, none, true)
    else if t == "FORCE_UPDATE" then .ok (s, none, true)
    else if t == "CLEAR_CACHE" then .ok (cachesDelete CACHE_VERSION s, none, false)
    else if t == "GET_CACHE_STATUS" then
      .ok (s, some ⟨"CACHE_STATUS", cachesKeys s, CACHE_VERSION⟩, false)
    else .ok (s, none, false)

end NetworkFirst

namespace CacheFirst

open SW

/-- `const CACHE_VERSION = 'purchase-tracker-v1'` (cache-first snapshot). -/
def CACHE_VERSION : Label := "purchase-tracker-v1"

/-- The cache-first fetch handler.  Non-GET and cross-origin requests
return before `respondWith`.  A cache hit (`caches.match`) is returned
with no network call; on a miss the network is consulted: a non-200 or
non-basic response is returned uncached, a 200/basic response is cloned,
stored, and returned; on network failure a navigation request falls back
to `caches.match('/index.html')` and anything else resolves `undefined`. -/
def fetchHandler (req : Request) (selfOrigin : String)
    (net : Except Unit Response) (s : CacheStorage) : CacheStorage × FetchOutcome :=
  if req.method != "GET" then (s, .passthrough)
  else if req.origin != selfOrigin then (s, .passthrough)
  else
    match cachesMatchUrl req.url s with
    | some cachedResponse => (s, .respond (.ok (some (fromStored cachedResponse))))
    | none =>
      match net with
      | .ok response =>
        if !(response.status == 200) || !(response.rtype == "basic") then
          (s, .respond (.ok (some response)))
        else
          match response.clone with
          | none => (s, .respond (.error ()))
          | some responseToCache =>
            match responseToStored responseToCache with
            | none => (s, .respond (.ok (some response)))
            | some sr => (openPut CACHE_VERSION req.url sr s, .respond (.ok (some response)))
      | .error _ =>
        if req.mode == "navigate" then
          (s, .respond (.ok ((cachesMatchUrl "/index.html" s).map fromStored)))
        else (s, .respond (.ok none))

/-- The message handler (cache-first snapshot): only `SKIP_WAITING` and
`CLEAR_CACHE`, no default logging case, no state beyond the delete. -/
def messageHandler (data : Option String) (s : CacheStorage) :
    Except Unit (CacheStorage × Bool) :=
  match data with
  | none => .error ()
  | some t =>
    if t == "SKIP_WAITING" then .ok (s, true)
    else if t == "CLEAR_CACHE" then .ok (cachesDelete CACHE_VERSION s, false)
    else .ok (s, false)

end CacheFirst

namespace SW

/-- A fully offline network: every static-asset fetch rejects.  Concrete
input for exercising the install-failure path. -/
def offlineFetch : Url → Except Unit StoredResponse := fun _ => .error ()

end SW

namespace SW

theorem mem_cachesDelete {l : Label} {s : CacheStorage} {p : Label × Cache} :
    p ∈ cachesDelete l s ↔ p ∈ s ∧ p.1 ≠ l := by
  simp [cachesDelete, List.mem_filter, bne_iff_ne]

theorem cachesDelete_idem (l : Label) (s : CacheStorage) :
    cachesDelete l (cachesDelete l s) = cachesDelete l s := by
  simp [cachesDelete, List.filter_filter]

theorem cachesDelete_absent {l : Label} {s : CacheStorage} (h : l ∉ cachesKeys s) :
    cachesDelete l s = s := by
  rw [cachesDelete, List.filter_eq_self]
  intro p hp
  simp only [bne_iff_ne, ne_eq]
  intro he
  exact h (he ▸ List.mem_map_of_mem Prod.fst hp)

end SW

open SW in
/-- C7: handling `GET_CACHE_STATUS` replies with the full generation list
(`caches.keys()`) and the compiled-in version label, posts it as a
`CACHE_STATUS` record, and returns the store unchanged — hence two
consecutive identical queries reply identically and the generation list
after the query equals the one before it. -/
theorem get_cache_status_pure (s : CacheStorage) :
    NetworkFirst.messageHandler (some "GET_CACHE_STATUS") s =
      .ok (s, some ⟨"CACHE_STATUS", cachesKeys s, NetworkFirst.CACHE_VERSION⟩, false) := by
  rfl

open SW in
/-- C8: handling `CLEAR_CACHE` deletes exactly the generation named by the
compiled-in version label (an entry survives iff its label differs), the
deletion is idempotent (handling the message twice equals handling it
once), and deleting an absent generation leaves the store unchanged.  Both
worker snapshots dispatch to the same `caches.delete(CACHE_VERSION)`. -/
theorem clear_cache_exact_idempotent (s : CacheStorage) :
    NetworkFirst.messageHandler (some "CLEAR_CACHE") s =
      .ok (cachesDelete NetworkFirst.CACHE_VERSION s, none, false) ∧
    CacheFirst.messageHandler (some "CLEAR_CACHE") s =
      .ok (cachesDelete CacheFirst.CACHE_VERSION s, false) ∧
    (∀ p : Label × Cache,
      p ∈ cachesDelete NetworkFirst.CACHE_VERSION s ↔
        p ∈ s ∧ p.1 ≠ NetworkFirst.CACHE_VERSION) ∧
    cachesDelete NetworkFirst.CACHE_VERSION (cachesDelete NetworkFirst.CACHE_VERSION s) =
      cachesDelete NetworkFirst.CACHE_VERSION s ∧
    (NetworkFirst.CACHE_VERSION ∉ cachesKeys s →
      cachesDelete NetworkFirst.CACHE_VERSION s = s) :=
  ⟨rfl, rfl, fun _ => mem_cachesDelete, cachesDelete_idem _ s, fun h => cachesDelete_absent h⟩

open SW in
/-- C8 witness: clearing a store that does not contain the current
generation is a no-op, at the concrete store `[("old-cache", [])]`. -/
theorem clear_cache_exact_idempotent_witness :
    ((("old-cache" : Label), ([] : Cache)) ∈
        cachesDelete NetworkFirst.CACHE_VERSION [(("old-cache" : Label), ([] : Cache))] ↔
      (("old-cache" : Label), ([] : Cache)) ∈ [(("old-cache" : Label), ([] : Cache))] ∧
        ("old-cache" : Label) ≠ NetworkFirst.CACHE_VERSION) ∧
    cachesDelete NetworkFirst.CACHE_VERSION [(("old-cache" : Label), ([] : Cache))] =
      [(("old-cache" : Label), ([] : Cache))] :=
  ⟨(clear_cache_exact_idempotent [(("old-cache" : Label), ([] : Cache))]).2.2.1 _,
   (clear_cache_exact_idempotent [(("old-cache" : Label), ([] : Cache))]).2.2.2.2 (by decide)⟩

open SW in
/-- C10: the message handler ignores an object payload whose `type`
matches no known case (default branch: store unchanged, no reply, no
`skipWaiting`), but a null/undefined payload makes `event.data.type`
throw, so the handler fails instead of ignoring the message. -/
theorem message_unknown_ignored_null_throws (s : CacheStorage) (t : String)
    (h : t ≠ "SKIP_WAITING" ∧ t ≠ "FORCE_UPDATE" ∧ t ≠ "CLEAR_CACHE" ∧ t ≠ "GET_CACHE_STATUS") :
    NetworkFirst.messageHandler (some t) s = .ok (s, none, false) ∧
    NetworkFirst.messageHandler none s = .error () := by
  obtain ⟨h1, h2, h3, h4⟩ := h
  refine ⟨?_, rfl⟩
  simp [NetworkFirst.messageHandler, h1, h2, h3, h4]

open SW in
/-- C10 witness: concrete instance at payload type `BOGUS` and the empty
store. -/
theorem message_unknown_ignored_null_throws_witness :
    NetworkFirst.messageHandler (some "BOGUS") [] = .ok ([], none, false) ∧
    NetworkFirst.messageHandler none [] = .error () :=
  message_unknown_ignored_null_throws [] "BOGUS" ⟨by decide, by decide, by decide, by decide⟩

namespace SW

theorem guard_nf (req : Request) (o : String) (net : Except Unit Response) (s : CacheStorage)
    (h : req.method ≠ "GET" ∨ req.origin ≠ o) :
    NetworkFirst.fetchHandler req o net s = (s, .passthrough) := by
  unfold NetworkFirst.fetchHandler
  rcases h with h | h
  · rw [if_pos (bne_iff_ne.mpr h)]
  · by_cases hm : req.method = "GET"
    · rw [if_neg (by simp [hm]), if_pos (bne_iff_ne.mpr h)]
    · rw [if_pos (bne_iff_ne.mpr hm)]

theorem guard_cf (req : Request) (o : String) (net : Except Unit Response) (s : CacheStorage)
    (h : req.method ≠ "GET" ∨ req.origin ≠ o) :
    CacheFirst.fetchHandler req o net s = (s, .passthrough) := by
  unfold CacheFirst.fetchHandler
  rcases h with h | h
  · rw [if_pos (bne_iff_ne.mpr h)]
  · by_cases hm : req.method = "GET"
    · rw [if_neg (by simp [hm]), if_pos (bne_iff_ne.mpr h)]
    · rw [if_pos (bne_iff_ne.mpr hm)]

theorem nf_success_cacheable (req : Request) (o : String) (r : Response) (s : CacheStorage)
    (hm : req.method = "GET") (ho : req.origin = o) (hu : r.bodyUsed = false)
    (hs : r.status = 200) (ht : r.rtype = "basic") :
    NetworkFirst.fetchHandler req o (.ok r) s =
      (openPut NetworkFirst.CACHE_VERSION req.url ⟨r.status, r.rtype, r.body⟩ s,
        .respond (.ok (some r))) := by
  unfold NetworkFirst.fetchHandler
  rw [if_neg (by simp [hm]), if_neg (by simp [ho])]
  simp [Response.clone, responseToStored, readBody, hu, hs, ht]

theorem nf_success_noncacheable (req : Request) (o : String) (r : Response) (s : CacheStorage)
    (hm : req.method = "GET") (ho : req.origin = o)
    (h : r.status ≠ 200 ∨ r.rtype ≠ "basic") :
    NetworkFirst.fetchHandler req o (.ok r) s = (s, .respond (.ok (some r))) := by
  unfold NetworkFirst.fetchHandler
  rw [if_neg (by simp [hm]), if_neg (by simp [ho])]
  have hb : (r.status == 200 && r.rtype == "basic") = false := by
    rcases h with h | h <;> simp [h]
  simp [hb]

theorem nf_offline (req : Request) (o : String) (s : CacheStorage)
    (hm : req.method = "GET") (ho : req.origin = o) :
    NetworkFirst.fetchHandler req o (.error ()) s =
      (s, .respond (.ok (match cachesMatchUrl req.url s with
        | some sr => some (fromStored sr)
        | none =>
          if req.mode == "navigate" then (cachesMatchUrl "/index.html" s).map fromStored
          else none))) := by
  unfold NetworkFirst.fetchHandler
  rw [if_neg (by simp [hm]), if_neg (by simp [ho])]
  rcases hc : cachesMatchUrl req.url s with _ | sr
  · by_cases hn : req.mode == "navigate" <;> simp [hc, hn]
  · simp [hc]

theorem cf_miss_cacheable (req : Request) (o : String) (r : Response) (s : CacheStorage)
    (hm : req.method = "GET") (ho : req.origin = o) (hmiss : cachesMatchUrl req.url s = none)
    (hu : r.bodyUsed = false) (hs : r.status = 200) (ht : r.rtype = "basic") :
    CacheFirst.fetchHandler req o (.ok r) s =
      (openPut CacheFirst.CACHE_VERSION req.url ⟨r.status, r.rtype, r.body⟩ s,
        .respond (.ok (some r))) := by
  unfold CacheFirst.fetchHandler
  rw [if_neg (by simp [hm]), if_neg (by simp [ho])]
  simp [hmiss, Response.clone, responseToStored, readBody, hu, hs, ht]

theorem nf_store_unchanged_noncacheable (req : Request) (o : String) (r : Response)
    (s : CacheStorage) (h : r.status ≠ 200 ∨ r.rtype ≠ "basic") :
    (NetworkFirst.fetchHandler req o (.ok r) s).1 = s := by
  unfold NetworkFirst.fetchHandler
  have hb : (r.status == 200 && r.rtype == "basic") = false := by
    rcases h with h | h <;> simp [h]
  by_cases h1 : req.method != "GET"
  · rw [if_pos h1]
  · rw [if_neg h1]
    by_cases h2 : req.origin != o
    · rw [if_pos h2]
    · rw [if_neg h2]
      simp [hb]

theorem cf_store_unchanged_noncacheable (req : Request) (o : String) (r : Response)
    (s : CacheStorage) (h : r.status ≠ 200 ∨ r.rtype ≠ "basic") :
    (CacheFirst.fetchHandler req o (.ok r) s).1 = s := by
  unfold CacheFirst.fetchHandler
  have hb : (!(r.status == 200) || !(r.rtype == "basic")) = true := by
    rcases h with h | h <;> simp [h]
  by_cases h1 : req.method != "GET"
  · rw [if_pos h1]
  · rw [if_neg h1]
    by_cases h2 : req.origin != o
    · rw [if_pos h2]
    · rw [if_neg h2]
      rcases hc : cachesMatchUrl req.url s with _ | sr <;> simp [hc, hb]

theorem any_cachesOpen (l : Label) (s : CacheStorage) :
    ((cachesOpen l s).any fun p => p.1 == l) = true := by
  unfold cachesOpen
  by_cases h : (s.any fun p => p.1 == l) = true
  · rw [if_pos h]; exact h
  · rw [if_neg h]; simp

theorem getCache_setCache (l : Label) (c : Cache) (s : CacheStorage)
    (h : (s.any fun p => p.1 == l) = true) :
    getCache l (setCache l c s) = c := by
  unfold getCache setCache
  induction s with
  | nil => simp at h
  | cons g rest ih =>
    simp only [List.any_cons, Bool.or_eq_true] at h
    by_cases hg : (g.1 == l) = true
    · rw [List.map_cons, if_pos hg]
      simp [List.find?_cons]
    · have hg2 : (g.1 == l) = false := by simpa using hg
      rw [List.map_cons, if_neg hg]
      simp only [List.find?_cons, hg2]
      exact ih (h.resolve_left hg)

theorem cacheMatchUrl_cachePutEntry (u : Url) (sr : StoredResponse) (c : Cache) :
    cacheMatchUrl u (cachePutEntry u sr c) = some sr := by
  simp [cacheMatchUrl, cachePutEntry, List.find?_cons_of_pos]

theorem cacheMatchUrl_openPut (l : Label) (u : Url) (sr : StoredResponse) (s : CacheStorage) :
    cacheMatchUrl u (getCache l (openPut l u sr s)) = some sr := by
  unfold openPut
  rw [getCache_setCache l _ _ (any_cachesOpen l s)]
  exact cacheMatchUrl_cachePutEntry u sr _

end SW

open SW in
/-- C5: a non-GET request, and a GET request whose origin differs from
the serving origin, are returned before `respondWith` by both fetch
handlers: the store is untouched (no lookup, no write) and the request
passes through to the network uninterecepted. -/
theorem pass_through_not_intercepted (req : Request) (o : String)
    (net : Except Unit Response) (s : CacheStorage)
    (h : req.method ≠ "GET" ∨ req.origin ≠ o) :
    NetworkFirst.fetchHandler req o net s = (s, .passthrough) ∧
    CacheFirst.fetchHandler req o net s = (s, .passthrough) :=
  ⟨guard_nf req o net s h, guard_cf req o net s h⟩

open SW in
/-- C5 witness: a concrete POST request to the serving origin is passed
through by both handlers. -/
theorem pass_through_not_intercepted_witness :
    NetworkFirst.fetchHandler ⟨"POST", "https://app.test/api", "https://app.test", "cors"⟩
        "https://app.test" (.error ()) [] = ([], .passthrough) ∧
    CacheFirst.fetchHandler ⟨"POST", "https://app.test/api", "https://app.test", "cors"⟩
        "https://app.test" (.error ()) [] = ([], .passthrough) :=
  pass_through_not_intercepted _ _ _ _ (Or.inl (by decide))

open SW in
/-- C4: a network response with status other than 200 or a delivery type
other than `basic` is never handed to `cache.put`: handling the request
leaves the cache store exactly as it was, in both worker snapshots. -/
theorem noncacheable_never_stored (req : Request) (o : String) (r : Response)
    (s : CacheStorage) (h : r.status ≠ 200 ∨ r.rtype ≠ "basic") :
    (NetworkFirst.fetchHandler req o (.ok r) s).1 = s ∧
    (CacheFirst.fetchHandler req o (.ok r) s).1 = s :=
  ⟨nf_store_unchanged_noncacheable req o r s h, cf_store_unchanged_noncacheable req o r s h⟩

open SW in
/-- C4 witness: a 404 same-origin response leaves the (empty) store
unchanged under both handlers. -/
theorem noncacheable_never_stored_witness :
    (NetworkFirst.fetchHandler ⟨"GET", "https://app.test/gone", "https://app.test", "cors"⟩
        "https://app.test" (.ok ⟨404, "basic", [], false⟩) []).1 = [] ∧
    (CacheFirst.fetchHandler ⟨"GET", "https://app.test/gone", "https://app.test", "cors"⟩
        "https://app.test" (.ok ⟨404, "basic", [], false⟩) []).1 = [] :=
  noncacheable_never_stored _ _ _ _ (Or.inl (by decide))

open SW in
/-- C9: under the network-first handler, a successful network response
that is not cacheable (status other than 200, or non-basic type) is still
returned to the caller as-is, and the store is left unmodified. -/
theorem noncacheable_success_returned_unchanged (req : Request) (o : String) (r : Response)
    (s : CacheStorage) (hm : req.method = "GET") (ho : req.origin = o)
    (h : r.status ≠ 200 ∨ r.rtype ≠ "basic") :
    NetworkFirst.fetchHandler req o (.ok r) s = (s, .respond (.ok (some r))) :=
  nf_success_noncacheable req o r s hm ho h

open SW in
/-- C9 witness: a 500 response is returned unchanged with the store
untouched. -/
theorem noncacheable_success_returned_unchanged_witness :
    NetworkFirst.fetchHandler ⟨"GET", "https://app.test/boom", "https://app.test", "cors"⟩
        "https://app.test" (.ok ⟨500, "basic", [7], false⟩) [] =
      ([], .respond (.ok (some ⟨500, "basic", [7], false⟩))) :=
  noncacheable_success_returned_unchanged _ _ _ _ rfl rfl (Or.inl (by decide))

namespace SW

theorem cachesKeys_filter_self {v : Label} {s : CacheStorage}
    (h1 : (cachesKeys s).Nodup) (h2 : v ∈ cachesKeys s) :
    cachesKeys (s.filter fun p => p.1 == v) = [v] := by
  induction s with
  | nil => simp [cachesKeys] at h2
  | cons g rest ih =>
    simp only [cachesKeys, List.map_cons, List.nodup_cons, List.mem_cons] at h1 h2
    by_cases hv : (g.1 == v) = true
    · have hgv : g.1 = v := by simpa using hv
      rw [List.filter_cons, if_pos hv]
      have hrest : rest.filter (fun p => p.1 == v) = [] := by
        rw [List.filter_eq_nil_iff]
        intro p hp hpv
        have hpv2 : p.1 = v := by simpa using hpv
        exact h1.1 (hgv ▸ hpv2 ▸ List.mem_map_of_mem Prod.fst hp)
      simp [cachesKeys, hrest, hgv]
    · have hne : v ≠ g.1 := fun he => hv (by simp [he])
      have hmem : v ∈ cachesKeys rest := h2.resolve_left hne
      rw [List.filter_cons, if_neg hv]
      exact ih h1.2 hmem

end SW

open SW in
/-- C6: when a network response is both cached and returned (same-origin
GET, fresh 200/basic response), the handler clones before any copy is
consumed: the snapshot stored under the request URL carries exactly the
response's bytes, the caller receives the original response with its body
still unconsumed (`readBody` succeeds and yields the same bytes), and the
clone consumed by `cache.put` was independently readable (its stored
snapshot exists).  Proven for the network-first handler and, on a cache
miss, for the cache-first handler. -/
theorem cached_and_returned_bytes_agree (req : Request) (o : String) (r : Response)
    (s : CacheStorage) (hm : req.method = "GET") (ho : req.origin = o)
    (hu : r.bodyUsed = false) (hs : r.status = 200) (ht : r.rtype = "basic") :
    (NetworkFirst.fetchHandler req o (.ok r) s =
        (openPut NetworkFirst.CACHE_VERSION req.url ⟨r.status, r.rtype, r.body⟩ s,
          .respond (.ok (some r))) ∧
      cacheMatchUrl req.url
          (getCache NetworkFirst.CACHE_VERSION (NetworkFirst.fetchHandler req o (.ok r) s).1) =
        some ⟨r.status, r.rtype, r.body⟩ ∧
      readBody r = some (r.body, { r with bodyUsed := true })) ∧
    (cachesMatchUrl req.url s = none →
      CacheFirst.fetchHandler req o (.ok r) s =
          (openPut CacheFirst.CACHE_VERSION req.url ⟨r.status, r.rtype, r.body⟩ s,
            .respond (.ok (some r))) ∧
        cacheMatchUrl req.url
            (getCache CacheFirst.CACHE_VERSION (CacheFirst.fetchHandler req o (.ok r) s).1) =
          some ⟨r.status, r.rtype, r.body⟩) := by
  have h1 := nf_success_cacheable req o r s hm ho hu hs ht
  refine ⟨⟨h1, ?_, ?_⟩, fun hmiss => ?_⟩
  · rw [h1]
    exact cacheMatchUrl_openPut ..
  · simp [readBody, hu]
  · have h2 := cf_miss_cacheable req o r s hm ho hmiss hu hs ht
    refine ⟨h2, ?_⟩
    rw [h2]
    exact cacheMatchUrl_openPut ..

open SW in
/-- C6 witness: a concrete fresh 200/basic response with body `[10, 20]`
is stored and returned with identical, independently readable bytes. -/
theorem cached_and_returned_bytes_agree_witness :
    NetworkFirst.fetchHandler ⟨"GET", "https://app.test/a.js", "https://app.test", "cors"⟩
        "https://app.test" (.ok ⟨200, "basic", [10, 20], false⟩) [] =
      (openPut NetworkFirst.CACHE_VERSION "https://app.test/a.js" ⟨200, "basic", [10, 20]⟩ [],
        .respond (.ok (some ⟨200, "basic", [10, 20], false⟩))) ∧
    cacheMatchUrl "https://app.test/a.js"
        (getCache NetworkFirst.CACHE_VERSION
          (NetworkFirst.fetchHandler ⟨"GET", "https://app.test/a.js", "https://app.test", "cors"⟩
            "https://app.test" (.ok ⟨200, "basic", [10, 20], false⟩) []).1) =
      some ⟨200, "basic", [10, 20]⟩ ∧
    readBody ⟨200, "basic", [10, 20], false⟩ = some ([10, 20], ⟨200, "basic", [10, 20], true⟩) :=
  (cached_and_returned_bytes_agree _ _ _ _ rfl rfl rfl rfl rfl).1

open SW in
/-- C3 counterexample: for a same-origin non-navigation GET with a failed
network fetch and an empty cache, the network-first handler's promise
resolves with `undefined` (no response) — it does not propagate the
failure as an error, contradicting the claim that the result is an error
and not an empty/undefined response. -/
theorem offline_non_navigation_resolves_undefined :
    NetworkFirst.fetchHandler ⟨"GET", "https://app.test/data.json", "https://app.test", "cors"⟩
        "https://app.test" (.error ()) [] = ([], .respond (.ok none)) ∧
    FetchOutcome.respond (.ok none) ≠ FetchOutcome.respond (.error ()) :=
  ⟨rfl, by decide⟩

open SW in
/-- C3 amended: under the network-first strategy, when the network fails,
a request whose URL is stored in some generation (`caches.match` searches
every generation, first hit wins) gets that stored response; a miss on a
navigation request gets whatever `caches.match('/index.html')` yields
(possibly no response); a miss on a non-navigation request makes the
handler resolve with no response (`undefined`) — the original network
failure is swallowed, and the page observes a platform-synthesized
network error rather than the propagated failure. -/
theorem offline_fallback_characterization (req : Request) (o : String) (s : CacheStorage)
    (hm : req.method = "GET") (ho : req.origin = o) :
    NetworkFirst.fetchHandler req o (.error ()) s =
      (s, .respond (.ok (match cachesMatchUrl req.url s with
        | some sr => some (fromStored sr)
        | none =>
          if req.mode == "navigate" then (cachesMatchUrl "/index.html" s).map fromStored
          else none))) :=
  nf_offline req o s hm ho

open SW in
/-- C3 witness: an offline navigation request with a seeded root document
is answered with the stored root document. -/
theorem offline_fallback_characterization_witness :
    NetworkFirst.fetchHandler ⟨"GET", "/page", "https://app.test", "navigate"⟩
        "https://app.test" (.error ())
        [(NetworkFirst.CACHE_VERSION, [("/index.html", ⟨200, "basic", [60, 62]⟩)])] =
      ([(NetworkFirst.CACHE_VERSION, [("/index.html", ⟨200, "basic", [60, 62]⟩)])],
        .respond (.ok (some ⟨200, "basic", [60, 62], false⟩))) :=
  (offline_fallback_characterization ⟨"GET", "/page", "https://app.test", "navigate"⟩
    "https://app.test"
    [(NetworkFirst.CACHE_VERSION, [("/index.html", ⟨200, "basic", [60, 62]⟩)])] rfl rfl).trans rfl

open SW in
/-- C1 counterexample: from a store holding only a stale generation (the
instance's own generation absent), the activate handler deletes the stale
generation and creates nothing, so `listGenerations()` is empty — not the
singleton of the compiled-in version label the claim requires for every
starting set of generations. -/
theorem activation_result_not_singleton_cex :
    NetworkFirst.listGenerations (NetworkFirst.activateHandler
        [(("old-cache" : Label), ([] : Cache))]) = [] ∧
    ([] : List Label) ≠ [NetworkFirst.CACHE_VERSION] :=
  ⟨rfl, by decide⟩

open SW in
/-- C1 amended: provided the store's generation labels are distinct (a
platform invariant) and the instance's own generation is present (as a
successful install arranges via `caches.open`), the activate handler
deletes every generation whose label differs from the compiled-in version
label and retains the instance's own, so `listGenerations()` is exactly
that singleton. -/
theorem activation_single_generation (s : CacheStorage)
    (h1 : (cachesKeys s).Nodup) (h2 : NetworkFirst.CACHE_VERSION ∈ cachesKeys s) :
    NetworkFirst.listGenerations (NetworkFirst.activateHandler s) = [NetworkFirst.CACHE_VERSION] :=
  cachesKeys_filter_self h1 h2

open SW in
/-- C1 witness: activating over the concrete store holding the current
generation and one stale generation leaves exactly the current label. -/
theorem activation_single_generation_witness :
    (cachesKeys [((NetworkFirst.CACHE_VERSION : Label), ([] : Cache)),
        (("old-cache" : Label), ([] : Cache))]).Nodup ∧
    NetworkFirst.listGenerations (NetworkFirst.activateHandler
        [((NetworkFirst.CACHE_VERSION : Label), ([] : Cache)),
          (("old-cache" : Label), ([] : Cache))]) = [NetworkFirst.CACHE_VERSION] :=
  ⟨by decide, activation_single_generation _ (by decide) (by decide)⟩

open SW in
/-- C2 (code bug): with a fully offline network, seeding the static
assets fails (`cache.addAll` rejects), yet the promise the install
handler hands to `event.waitUntil` still resolves, because the trailing
`.catch(err => console.error(...))` converts the failure into success:
installation completes (with the generation created but empty) instead of
failing as the claim — and the handler's own comment that caching must
complete before the worker counts as installed — require. -/
theorem install_resolves_despite_seeding_failure :
    addAll offlineFetch NetworkFirst.STATIC_CACHE_FILES [] = .error () ∧
    NetworkFirst.installWaitUntil offlineFetch [] =
      ([(NetworkFirst.CACHE_VERSION, [])], .ok ()) :=
  ⟨rfl, rfl⟩
